import Mathlib

/-
Verification of the pm-bot conversational orchestration bot.

This file gives a shallow embedding of the conversation state machine
(src/services/slack_service.py), the workflow orchestrator
(src/core/project_manager.py), the story-generation fan-out
(src/services/openai_service.py) and the text parsing utilities
(src/utils/text_parser.py), together with theorems settling the claims
about them.  External capability ports (AI generation, issue tracker,
calendar retrieval) are modelled as function-valued parameters; calls
that the Python services catch internally are typed total, calls whose
exceptions reach the orchestrator are typed with Except.
-/

namespace PMBot

/-! ## Python-style string helpers -/

/-- Contiguous containment of one list in another. -/
def listInfixOf {α : Type} [BEq α] : List α → List α → Bool
  | needle, [] => needle.isEmpty
  | needle, h :: t => needle.isPrefixOf (h :: t) || listInfixOf needle t

/-- Membership test of Python `needle in haystack` on strings:
contiguous substring containment. -/
def strContains (hay needle : String) : Bool :=
  listInfixOf needle.toList hay.toList

/-- Python `str.strip()`: remove leading and trailing whitespace.
(Implemented on the character list so that it reduces in the kernel.) -/
def pyStrip (s : String) : String :=
  String.mk (((s.toList.dropWhile Char.isWhitespace).reverse.dropWhile
    Char.isWhitespace).reverse)

/-- Python `str.lower()` (ASCII range, which covers all source inputs). -/
def pyLower (s : String) : String := String.mk (s.toList.map Char.toLower)

/-- Python `str.upper()` (ASCII range). -/
def pyUpper (s : String) : String := String.mk (s.toList.map Char.toUpper)

/-- Python `len` on a string: number of characters. -/
def strLen (s : String) : Nat := s.toList.length

/-- Python `str.startswith`. -/
def pyStartsWith (s pre : String) : Bool := pre.toList.isPrefixOf s.toList

/-- Split at every occurrence of the character, keeping empty parts
(Python `str.split(c)`). -/
def splitChar (c : Char) : List Char → List (List Char)
  | [] => [[]]
  | a :: rest =>
    if a = c then [] :: splitChar c rest
    else
      match splitChar c rest with
      | [] => [[a]]
      | g :: gs => (a :: g) :: gs

/-- Python `s.split(c)` for a one-character separator. -/
def pySplitOnChar (c : Char) (s : String) : List String :=
  (splitChar c s.toList).map String.mk

/-- Split at every character satisfying the predicate, keeping empty
parts. -/
def splitPred (p : Char → Bool) : List Char → List (List Char)
  | [] => [[]]
  | a :: rest =>
    if p a then [] :: splitPred p rest
    else
      match splitPred p rest with
      | [] => [[a]]
      | g :: gs => (a :: g) :: gs

/-- Python `str.split()` with no argument: split on runs of whitespace,
dropping empty tokens. -/
def pySplitWs (s : String) : List String :=
  ((splitPred Char.isWhitespace s.toList).map String.mk).filter (fun t => t ≠ "")

/-- Break a character list at the first occurrence of a character. -/
def breakAtFirst (c : Char) : List Char → Option (List Char × List Char)
  | [] => none
  | a :: rest =>
    if a = c then some ([], rest)
    else
      match breakAtFirst c rest with
      | some (pre, post) => some (a :: pre, post)
      | none => none

/-- Python `line.split(':', 1)`: the part before the first colon and
everything after it (the line itself when no colon occurs, a case every
caller guards against). -/
def splitFirstColon (line : String) : String × String :=
  match breakAtFirst ':' line.toList with
  | some (pre, post) => (String.mk pre, String.mk post)
  | none => (line, "")

/-- Python `str.replace` with a nonempty pattern: left-to-right
non-overlapping replacement; fuel is bounded by the length since every
step consumes at least one character. -/
def replaceAllAux (pat rep : List Char) : Nat → List Char → List Char
  | 0, l => l
  | _, [] => []
  | fuel + 1, a :: rest =>
    if pat.isPrefixOf (a :: rest) then
      rep ++ replaceAllAux pat rep fuel ((a :: rest).drop pat.length)
    else a :: replaceAllAux pat rep fuel rest

def pyReplace (s pat rep : String) : String :=
  String.mk (replaceAllAux pat.toList rep.toList (s.toList.length + 1) s.toList)

/-- Join string parts with a separator. -/
def strJoinWith (sep : String) (parts : List String) : String :=
  String.mk (List.intercalate sep.toList (parts.map String.toList))

/-- Value of a digit run, ignoring underscore separators. -/
def digitsToNat (cs : List Char) : Nat :=
  cs.foldl (fun a c => if c.isDigit then a * 10 + (c.toNat - 48) else a) 0

/-- Digit run as accepted by Python `int`: nonempty, begins and ends
with a digit, only digits and single underscores between digits. -/
def validPyDigits (cs : List Char) : Bool :=
  match cs with
  | [] => false
  | c :: _ =>
    c.isDigit &&
    (match cs.getLast? with
     | some l => l.isDigit
     | none => false) &&
    cs.all (fun ch => ch.isDigit || ch = '_') &&
    !(listInfixOf ['_', '_'] cs)

/-- Python `int(s)` on a stripped token: optional sign followed by a
valid digit run (ASCII digits; exotic unicode digits are out of scope). -/
def pyInt (s : String) : Option Int :=
  match (pyStrip s).toList with
  | '+' :: rest => if validPyDigits rest then some (Int.ofNat (digitsToNat rest)) else none
  | '-' :: rest => if validPyDigits rest then some (-(Int.ofNat (digitsToNat rest))) else none
  | rest => if validPyDigits rest then some (Int.ofNat (digitsToNat rest)) else none

/-! ## Priority normalization (src/utils/text_parser.py, normalize_priority) -/

/-- Association-list lookup with Python dict `get` semantics (first match;
keys are unique in all stores built here). -/
def dget {α : Type} : List (String × α) → String → Option α
  | [], _ => none
  | (k', v) :: rest, k => if k' = k then some v else dget rest k

/-- The fixed alias table of `normalize_priority`. -/
def priority_mapping : List (String × String) :=
  [("low", "Low"), ("l", "Low"), ("minor", "Low"),
   ("medium", "Medium"), ("med", "Medium"), ("m", "Medium"), ("normal", "Medium"),
   ("high", "High"), ("h", "High"), ("important", "High"),
   ("critical", "Critical"), ("crit", "Critical"), ("urgent", "Critical"), ("blocker", "Critical")]

/-- `normalize_priority`: `None` on the empty (falsy) string, otherwise
trim, lowercase and look up in the alias table with default `"Medium"`. -/
def normalize_priority (priority : String) : Option String :=
  if priority = "" then
    none
  else
    let p := pyLower (pyStrip priority)
    some ((dget priority_mapping p).getD "Medium")

/-! ## Search-meeting argument parsing
(src/core/project_manager.py, handle_search_meetings, lines 116-129) -/

structure SearchArgs where
  keyword : String
  confluence_space : Option String := none
  days_back : Int := 30
deriving Repr, DecidableEq

/-- One step of the flag loop `for arg in args[1:]`. -/
def procSearchFlag (acc : Option String × Int) (arg : String) : Option String × Int :=
  if pyStartsWith arg "space=" then
    (some ((pySplitOnChar '=' arg).getD 1 ""), acc.2)
  else if pyStartsWith arg "days=" then
    match pyInt ((pySplitOnChar '=' arg).getD 1 "") with
    | some n => (acc.1, n)
    | none => acc
  else acc

/-- The argument parsing of `handle_search_meetings` on the token list:
`keyword = args[0]` unconditionally, flags scanned over `args[1:]`. -/
def parseSearchTokens : List String → Option SearchArgs
  | [] => none
  | kw :: rest =>
    let flags := rest.foldl procSearchFlag (none, 30)
    some { keyword := kw, confluence_space := flags.1, days_back := flags.2 }

/-- `handle_search_meetings` argument parsing from the raw command text:
strip, reject empty, split on whitespace. -/
def parseSearchArgs (text : String) : Option SearchArgs :=
  let t := pyStrip text
  if t = "" then none else parseSearchTokens (pySplitWs t)

/-! ## Epic request parsing (src/services/slack_service.py, _parse_epic_request) -/

structure EpicData where
  title : Option String := none
  description : Option String := none
  preferred_features : Option (List String) := none
  priority : Option String := none
  labels : Option (List String) := none
deriving Repr, DecidableEq

/-- Python `[f.strip() for f in value.split(',') if f.strip()]`. -/
def commaSplit (value : String) : List String :=
  ((pySplitOnChar ',' value).map pyStrip).filter (fun f => f ≠ "")

/-- Processing of one line of the epic request body. -/
def epicLineStep (d : EpicData) (line0 : String) : EpicData :=
  let line := pyStrip line0
  if strContains line ":" then
    let key := pyLower (pyStrip (splitFirstColon line).1)
    let value := pyStrip (splitFirstColon line).2
    if key = "title" || key = "name" then
      { d with title := some value }
    else if key = "description" || key = "desc" then
      { d with description := some value }
    else if key = "features" || key = "feature" then
      { d with preferred_features := some (commaSplit value) }
    else if key = "priority" || key = "prio" then
      { d with priority := some value }
    else if key = "labels" || key = "label" then
      { d with labels := some (commaSplit value) }
    else d
  else d

/-- The line loop of `_parse_epic_request` without the final required-field
check. -/
def collectEpicFields (text : String) : EpicData :=
  (pySplitOnChar '\n' text).foldl epicLineStep {}

/-- `_parse_epic_request`: `None` when title or description is missing
after processing every line, the collected record otherwise. -/
def parseEpicRequest (text : String) : Option EpicData :=
  let d := collectEpicFields text
  if d.title = none ∨ d.description = none then none else some d

/-- The normalized key of a line, when the line has a colon. -/
def lineField (line0 : String) : Option String :=
  let line := pyStrip line0
  if strContains line ":" then some (pyLower (pyStrip (splitFirstColon line).1)) else none

/-- A line whose key assigns the title field. -/
def isTitleLine (line : String) : Bool :=
  match lineField line with
  | some k => decide (k = "title" ∨ k = "name")
  | none => false

/-- A line whose key assigns the description field. -/
def isDescriptionLine (line : String) : Bool :=
  match lineField line with
  | some k => decide (k = "description" ∨ k = "desc")
  | none => false

/-! ## Data model -/

/-- Issue-tracker epic record (src/models/epic.py, fields the core uses). -/
structure Epic where
  key : Option String := none
  title : String
  description : String
  priority : String := "Medium"
deriving Repr, DecidableEq

/-- User story record (src/models/user_story.py, fields the core uses). -/
structure UserStory where
  key : Option String := none
  title : String
  description : String
  epic_key : Option String := none
deriving Repr, DecidableEq

/-- Epic creation request (src/models/epic.py, EpicRequest). -/
structure EpicRequest where
  title : String
  description : String
  preferred_features : Option (List String) := none
  priority : Option String := some "Medium"
  labels : Option (List String) := none
deriving Repr, DecidableEq

/-- Epic creation response (src/models/epic.py, EpicResponse). -/
structure EpicResponse where
  success : Bool
  epic : Option Epic := none
  message : String
  user_stories_count : Option Nat := none
deriving Repr, DecidableEq

/-- Document-derived epic proposal (dict produced by the AI port;
`features` and `labels` model `get(key, [])`, `priority` models
`get("priority", "Medium")`). -/
structure Proposal where
  title : String
  description : String
  features : List String := []
  acceptance_criteria : List String := []
  priority : Option String := none
  labels : List String := []
deriving Repr, DecidableEq

/-- The per-user `documents` payload collected by the document-epic flow. -/
structure Documents where
  confluence_links : List String := []
  prd_documents : List String := []
  meeting_notes : List String := []
  attachments : List String := []
deriving Repr, DecidableEq

/-- A per-user conversation state entry: the dict stored in
`SlackService.conversation_states`, with optional fields for the keys the
handlers may add. -/
structure ConvEntry where
  step : String
  substep : Option String := none
  epic_data : Option EpicData := none
  space_key : Option String := none
  keyword : Option String := none
  documents : Option Documents := none
  feedback : Option String := none
  proposals : Option (List Proposal) := none
deriving Repr, DecidableEq

instance : Inhabited ConvEntry := ⟨{ step := "initial" }⟩

/-- The shared mutable state: the conversation store and the pending
proposal store (`SlackService.conversation_states` and
`SlackService.epic_proposals`; of the proposal dict only the `proposals`
list is ever read back — `markdown`, `channel` and `timestamp` are
rendering metadata). -/
structure SysState where
  conv : List (String × ConvEntry) := []
  proposals : List (String × List Proposal) := []
deriving Repr, DecidableEq

/-- Dict assignment `m[k] = v`. -/
def dset {α : Type} : List (String × α) → String → α → List (String × α)
  | [], k, v => [(k, v)]
  | (k', v') :: rest, k, v =>
    if k' = k then (k, v) :: rest else (k', v') :: dset rest k v

/-- Dict deletion `del m[k]` (no-op when the key is absent, matching the
guarded deletions in the source). -/
def ddel {α : Type} : List (String × α) → String → List (String × α)
  | [], _ => []
  | (k', v') :: rest, k =>
    if k' = k then ddel rest k else (k', v') :: ddel rest k

/-! ## Rendered chat output and background tasks

Each distinct literal message template of the source is one constructor;
dynamic parts that matter to the claims are carried as payload. -/

inductive Msg where
  | mainMenu
  | farewell
  | detailedHelp
  | retryChoice
  | docIntakePrompt
  | epicFormatPrompt
  | spacePrompt
  | keywordPrompt
  | invalidEpicFormat
  | epicSummary (d : EpicData)
  | creatingEpic
  | editPrompt
  | confirmEditPrompt
  | invalidSpaceKey
  | spaceConfirm (space_key : String)
  | processingMeetings
  | confirmProcessPrompt
  | invalidKeyword
  | keywordConfirm (keyword : String)
  | searchingMeetings
  | confirmSearchPrompt
  | switchingSimple
  | noDocsDetected
  | docsSummary (d : Documents)
  | processingDocs
  | docsCancelled
  | approvalReceived
  | approvalSummary (created failed : Nat)
  | noPendingProposals
  | rejectFeedbackPrompt
  | cancelledProposals
  | invalidApprovalResponse
  | feedbackReceived
  | provideFeedback
  | regenerating
  | regenFailed
  | updatedProposals
  | regenError (e : String)
  | genericEpicError
  | genericError
deriving Repr, DecidableEq

/-- Fire-and-forget background tasks spawned with `asyncio.create_task`;
their later effects are not part of the turn transition. -/
inductive Spawn where
  | processEpicCreation (req : EpicRequest)
  | processMeetingsBg (space_key : Option String)
  | searchMeetingsBg (keyword : Option String) (space : Option String) (days_back : Int)
  | processDocsBg (docs : Documents)
deriving Repr, DecidableEq

/-- Result of handling one inbound message. -/
structure TurnOut where
  sys : SysState
  msgs : List Msg := []
  spawns : List Spawn := []
deriving Repr, DecidableEq

/-! ## Greeting and termination detection (slack_service lines 114-124) -/

def greetings : List String :=
  ["hi", "hello", "hey", "start", "help", "what can you do"]

def done_phrases : List String :=
  ["done", "finished", "complete", "bye", "goodbye", "thanks", "thank you",
   "that\x27s all", "exit", "quit"]

/-- `_is_greeting_or_initial`: a fixed phrase occurs in the lowercased
text, or the text has at most two whitespace tokens. -/
def isGreetingOrInitial (text : String) : Bool :=
  let tl := pyLower text
  greetings.any (fun g => strContains tl g) || (pySplitWs text).length ≤ 2

/-- `_is_done_message`: a fixed termination phrase occurs in the
lowercased text. -/
def isDoneMessage (text : String) : Bool :=
  let tl := pyLower text
  done_phrases.any (fun p => strContains tl p)

/-- The preprocessing of `_handle_conversational_message`: strip, remove
the bot mention when present, strip again. -/
def preprocess (botId text0 : String) : String :=
  let text := pyStrip text0
  let mention := "<@" ++ botId ++ ">"
  if strContains text mention then pyStrip (pyReplace text mention "") else text

/-! ## Confluence link extraction
(slack_service lines 651-655: `re.findall` with pattern
`https?://[^\s]+(?:confluence|wiki)[^\s]*`)

A match starts at an occurrence of `http://` or `https://`, requires at
least one further non-whitespace character followed by the literal
`confluence` or `wiki` inside the same maximal non-whitespace run, and —
because the trailing `[^\s]*` is greedy — always extends to the end of
that run; scanning resumes after the match. -/

/-- Length of the scheme prefix when the text starts with a URL scheme
(`https?` is greedy, and `https://` and `http://` are mutually exclusive
at a given position). -/
def urlSchemeLen (cs : List Char) : Option Nat :=
  if "https://".toList.isPrefixOf cs then some 8
  else if "http://".toList.isPrefixOf cs then some 7
  else none

/-- Whether the non-whitespace run contains `confluence` or `wiki`
starting at an index that leaves at least one character for `[^\s]+`. -/
def runHasKeyword (run : List Char) (schemeLen : Nat) : Bool :=
  (List.range (run.length + 1)).any (fun i =>
    schemeLen + 1 ≤ i &&
    ("confluence".toList.isPrefixOf (run.drop i) ||
     "wiki".toList.isPrefixOf (run.drop i)))

/-- Left-to-right scan producing the non-overlapping matches; fuel is the
remaining length, which bounds the number of scan steps since every step
consumes at least one character. -/
def findLinksAux : Nat → List Char → List String
  | 0, _ => []
  | _, [] => []
  | fuel + 1, c :: rest =>
    match urlSchemeLen (c :: rest) with
    | some schemeLen =>
      let run := (c :: rest).takeWhile (fun ch => !ch.isWhitespace)
      if runHasKeyword run schemeLen then
        String.mk run :: findLinksAux fuel ((c :: rest).drop run.length)
      else
        findLinksAux fuel rest
    | none => findLinksAux fuel rest

/-- `re.findall(confluence_pattern, text)`. -/
def findConfluenceLinks (text : String) : List String :=
  findLinksAux (text.toList.length + 1) text.toList

/-- The document collection of one turn of `_handle_document_epic_flow`
(lines 643-665): link extraction, then content classification for long
link-free texts. -/
def classifyDocuments (text : String) : Documents :=
  let links := findConfluenceLinks text
  let docs : Documents := { confluence_links := links }
  if strLen text > 200 && links.isEmpty then
    let tl := pyLower text
    if ["requirement", "prd", "product"].any (fun k => strContains tl k) then
      { docs with prd_documents := [text] }
    else if ["meeting", "notes", "discussion"].any (fun k => strContains tl k) then
      { docs with meeting_notes := [text] }
    else
      { docs with attachments := [text] }
  else docs

/-- `sum(len(docs) for docs in state["documents"].values())`. -/
def docTotal (d : Documents) : Nat :=
  d.confluence_links.length + d.prd_documents.length +
  d.meeting_notes.length + d.attachments.length

/-- `any(result.values())` on a documents dict. -/
def docsAny (d : Documents) : Bool :=
  !d.confluence_links.isEmpty || !d.prd_documents.isEmpty ||
  !d.meeting_notes.isEmpty || !d.attachments.isEmpty

/-! ## External capability ports (epic side)

`generate_features` and `regenerate_epics` wrap AI calls; the OpenAI
service catches every exception of `generate_features` and returns `[]`,
so that port is total.  The per-feature story call and the issue-tracker
calls can raise into the orchestrator, so they use `Except`.  The
document-epic regeneration call can raise (the method is even absent
from the OpenAI service, an `AttributeError` at run time), and the
orchestrator catches it, so it uses `Except` too. -/

structure Ports where
  jira_project_key : String
  generate_features : String → String → String → List String
  create_epic : EpicRequest → Except String Epic
  generate_story : String → String → String → Except String UserStory
  create_user_story : UserStory → Option String → Except String UserStory
  regenerate_epics : List Proposal → String → String → Except String (List Proposal)

/-- `f"Project: {settings.jira_project_key}"`. -/
def projectContext (P : Ports) : String := "Project: " ++ P.jira_project_key

/-- `Except.toOption` under a local name. -/
def exceptToOption {ε α : Type} : Except ε α → Option α
  | .ok a => some a
  | .error _ => none

/-! ## Story generation fan-out
(src/services/openai_service.py, generate_user_stories, lines 502-547)

One task per feature, `asyncio.gather(..., return_exceptions=True)`, then
exceptions are filtered out and only `UserStory` results kept; gather
preserves task order. -/

def generate_user_stories (P : Ports) (epic_description : String)
    (features : List String) (project_context : String) : List UserStory :=
  (features.map (fun f => P.generate_story epic_description f project_context)).filterMap
    exceptToOption

/-! ## Epic creation workflow
(src/core/project_manager.py, create_epic_with_stories, lines 481-539) -/

/-- Python falsiness of the optional feature list (`not features`). -/
def featuresEmptyOpt : Option (List String) → Bool
  | none => true
  | some l => l.isEmpty

/-- `if not features and generate_features: features = ai.generate_features(...)`. -/
def resolveFeatures (P : Ports) (req : EpicRequest) (gen : Bool) : Option (List String) :=
  if featuresEmptyOpt req.preferred_features && gen then
    some (P.generate_features req.title req.description (projectContext P))
  else req.preferred_features

def create_epic_with_stories (P : Ports) (req0 : EpicRequest) (gen : Bool) : EpicResponse :=
  let features := resolveFeatures P req0 gen
  let req := { req0 with preferred_features := features }
  match P.create_epic req with
  | .error e =>
    { success := false, epic := none, message := "Failed to create epic: " ++ e }
  | .ok epic =>
    let user_stories :=
      if featuresEmptyOpt features then []
      else
        let generated :=
          generate_user_stories P epic.description (features.getD []) (projectContext P)
        generated.filterMap (fun s => exceptToOption (P.create_user_story s epic.key))
    { success := true, epic := some epic,
      message := "Epic and user stories created successfully!",
      user_stories_count := some user_stories.length }

/-! ## Epic proposal approval
(src/core/project_manager.py, handle_epic_approval_response, lines
1183-1322; channel routing is a transport concern and not modelled) -/

structure ApprovalResult where
  success : Bool
  error : Option String := none
  status : Option String := none
  created : Option Nat := none
  failed : Option Nat := none
deriving Repr, DecidableEq

structure ApprovalOut where
  sys : SysState
  msgs : List Msg
  result : ApprovalResult
deriving Repr, DecidableEq

/-- `EpicRequest(title=..., description=..., preferred_features=
epic_data.get("features", []), priority=epic_data.get("priority",
"Medium"), labels=epic_data.get("labels", []))`. -/
def proposalToRequest (p : Proposal) : EpicRequest :=
  { title := p.title, description := p.description,
    preferred_features := some p.features,
    priority := some (p.priority.getD "Medium"),
    labels := some p.labels }

def handle_epic_approval_response (P : Ports) (sys : SysState)
    (user_id response : String) : ApprovalOut :=
  match dget sys.proposals user_id with
  | none =>
    { sys := sys, msgs := [Msg.noPendingProposals],
      result := { success := false, error := some "No pending proposals" } }
  | some epic_proposals =>
    if pyLower response = "approve" then
      -- one epic-creation workflow invocation per proposal; the
      -- per-proposal `except` is unreachable because the workflow
      -- returns a failure response instead of raising
      let outcomes :=
        epic_proposals.map (fun p => create_epic_with_stories P (proposalToRequest p) true)
      let createdCount := (outcomes.filter (fun r => r.success)).length
      let failedCount := (outcomes.filter (fun r => !r.success)).length
      { sys := { sys with proposals := ddel sys.proposals user_id },
        msgs := [Msg.approvalReceived, Msg.approvalSummary createdCount failedCount],
        result := { success := true, created := some createdCount,
                    failed := some failedCount } }
    else if pyLower response = "reject" then
      let entry : ConvEntry :=
        { step := "collecting_epic_feedback", proposals := some epic_proposals }
      { sys := { sys with conv := dset sys.conv user_id entry },
        msgs := [Msg.rejectFeedbackPrompt],
        result := { success := true, status := some "collecting_feedback" } }
    else if pyLower response = "cancel" then
      { sys := { conv := ddel sys.conv user_id, proposals := ddel sys.proposals user_id },
        msgs := [Msg.cancelledProposals],
        result := { success := true, status := some "cancelled" } }
    else
      { sys := sys, msgs := [Msg.invalidApprovalResponse],
        result := { success := false, error := some "Invalid response" } }

/-- `regenerate_epics_with_feedback` (project_manager lines 1324-1411). -/
def regenerate_epics_with_feedback (P : Ports) (sys : SysState) (user_id : String)
    (original_proposals : List Proposal) (feedback : String) : ApprovalOut :=
  match P.regenerate_epics original_proposals feedback (projectContext P) with
  | .error e =>
    { sys := sys, msgs := [Msg.regenerating, Msg.regenError e],
      result := { success := false, error := some e } }
  | .ok [] =>
    { sys := sys, msgs := [Msg.regenerating, Msg.regenFailed],
      result := { success := false, error := some "Regeneration failed" } }
  | .ok updated =>
    let entry : ConvEntry := { step := "awaiting_epic_approval", proposals := some updated }
    { sys := { conv := dset sys.conv user_id entry,
               proposals := dset sys.proposals user_id updated },
      msgs := [Msg.regenerating, Msg.updatedProposals],
      result := { success := true, status := some "awaiting_approval" } }

/-! ## Conversation flow handlers
(slack_service step handlers together with the synchronous parts of the
enhanced wrappers that ProjectManager installs over them) -/

/-- `_start_conversation`: reset the entry and render the main menu. -/
def startConversation (sys : SysState) (user_id : String) : SysState :=
  { sys with conv := dset sys.conv user_id { step := "awaiting_choice" } }

/-- `_handle_user_choice` (lines 143-231). -/
def handleUserChoice (sys : SysState) (user_id text : String) : TurnOut :=
  let tl := pyLower text
  if strContains text "1" || strContains tl "epic" || strContains tl "create" then
    if ["document", "hld", "prd", "file", "confluence", "meeting"].any
        (fun w => strContains tl w) then
      let entry : ConvEntry :=
        { step := "document_epic_creation", substep := some "awaiting_documents" }
      { sys := { sys with conv := dset sys.conv user_id entry },
        msgs := [Msg.docIntakePrompt] }
    else
      let entry : ConvEntry := { step := "epic_creation", substep := some "awaiting_details" }
      { sys := { sys with conv := dset sys.conv user_id entry },
        msgs := [Msg.epicFormatPrompt] }
  else if strContains text "2" || strContains tl "process" || strContains tl "meeting" then
    let entry : ConvEntry := { step := "meeting_processing", substep := some "awaiting_space" }
    { sys := { sys with conv := dset sys.conv user_id entry },
      msgs := [Msg.spacePrompt] }
  else if strContains text "3" || strContains tl "search" then
    let entry : ConvEntry := { step := "meeting_search", substep := some "awaiting_keyword" }
    { sys := { sys with conv := dset sys.conv user_id entry },
      msgs := [Msg.keywordPrompt] }
  else if strContains text "4" || strContains tl "help" then
    { sys := sys, msgs := [Msg.detailedHelp] }
  else
    { sys := sys, msgs := [Msg.retryChoice] }

structure EpicFlowOut where
  sys : SysState
  msgs : List Msg
  result : Option EpicData := none
deriving Repr, DecidableEq

/-- `_handle_epic_creation_flow` (lines 233-277); on confirm the old
old entry still supplies the returned `epic_data` while the store entry
is reset. -/
def handleEpicCreationFlow (sys : SysState) (user_id text : String) : EpicFlowOut :=
  let entry := (dget sys.conv user_id).getD default
  match entry.substep with
  | some "awaiting_details" =>
    match parseEpicRequest text with
    | none => { sys := sys, msgs := [Msg.invalidEpicFormat] }
    | some d =>
      let entry1 : ConvEntry := { entry with epic_data := some d, substep := some "confirming" }
      { sys := { sys with conv := dset sys.conv user_id entry1 },
        msgs := [Msg.epicSummary d] }
  | some "confirming" =>
    if strContains (pyLower text) "confirm" then
      let reset : ConvEntry := { step := "awaiting_choice" }
      { sys := { sys with conv := dset sys.conv user_id reset },
        msgs := [Msg.creatingEpic], result := entry.epic_data }
    else if strContains (pyLower text) "edit" then
      let entry1 : ConvEntry := { entry with substep := some "awaiting_details" }
      { sys := { sys with conv := dset sys.conv user_id entry1 },
        msgs := [Msg.editPrompt] }
    else
      { sys := sys, msgs := [Msg.confirmEditPrompt] }
  | _ => { sys := sys, msgs := [] }

/-- `EpicRequest(**epic_data)`: pydantic requires title and description;
`priority` keeps its default `"Medium"` when the key is absent. -/
def toEpicRequest (d : EpicData) : Option EpicRequest :=
  match d.title, d.description with
  | some t, some ds =>
    some { title := t, description := ds,
           preferred_features := d.preferred_features,
           priority := some (d.priority.getD "Medium"),
           labels := d.labels }
  | _, _ => none

/-- `enhanced_handle_epic_creation` (project_manager lines 152-170):
spawn the background epic creation when the flow confirmed an intent;
a validation failure is caught and reported. -/
def enhancedEpicCreation (sys : SysState) (user_id text : String) : TurnOut :=
  let r := handleEpicCreationFlow sys user_id text
  match r.result with
  | some d =>
    match toEpicRequest d with
    | some req => { sys := r.sys, msgs := r.msgs, spawns := [Spawn.processEpicCreation req] }
    | none => { sys := r.sys, msgs := r.msgs ++ [Msg.genericEpicError] }
  | none => { sys := r.sys, msgs := r.msgs }

structure MeetFlowOut where
  sys : SysState
  msgs : List Msg
  action : Option (Option String) := none
deriving Repr, DecidableEq

/-- `_handle_meeting_processing_flow` (lines 279-306). -/
def handleMeetingProcessingFlow (sys : SysState) (user_id text : String) : MeetFlowOut :=
  let entry := (dget sys.conv user_id).getD default
  match entry.substep with
  | some "awaiting_space" =>
    let space_key := pyUpper (pyStrip text)
    if strLen space_key < 2 || strLen space_key > 10 then
      { sys := sys, msgs := [Msg.invalidSpaceKey] }
    else
      let entry1 : ConvEntry :=
        { entry with space_key := some space_key, substep := some "confirming" }
      { sys := { sys with conv := dset sys.conv user_id entry1 },
        msgs := [Msg.spaceConfirm space_key] }
  | some "confirming" =>
    if strContains (pyLower text) "confirm" then
      let reset : ConvEntry := { step := "awaiting_choice" }
      { sys := { sys with conv := dset sys.conv user_id reset },
        msgs := [Msg.processingMeetings], action := some entry.space_key }
    else
      { sys := sys, msgs := [Msg.confirmProcessPrompt] }
  | _ => { sys := sys, msgs := [] }

/-- `enhanced_handle_meeting_processing` (project_manager lines 232-250). -/
def enhancedMeetingProcessing (sys : SysState) (user_id text : String) : TurnOut :=
  let r := handleMeetingProcessingFlow sys user_id text
  match r.action with
  | some sk => { sys := r.sys, msgs := r.msgs, spawns := [Spawn.processMeetingsBg sk] }
  | none => { sys := r.sys, msgs := r.msgs }

/-- `_handle_meeting_search_flow` (lines 308-335). -/
def handleMeetingSearchFlow (sys : SysState) (user_id text : String) : MeetFlowOut :=
  let entry := (dget sys.conv user_id).getD default
  match entry.substep with
  | some "awaiting_keyword" =>
    let keyword := pyStrip text
    if keyword = "" then
      { sys := sys, msgs := [Msg.invalidKeyword] }
    else
      let entry1 : ConvEntry :=
        { entry with keyword := some keyword, substep := some "confirming" }
      { sys := { sys with conv := dset sys.conv user_id entry1 },
        msgs := [Msg.keywordConfirm keyword] }
  | some "confirming" =>
    if strContains (pyLower text) "confirm" then
      let reset : ConvEntry := { step := "awaiting_choice" }
      { sys := { sys with conv := dset sys.conv user_id reset },
        msgs := [Msg.searchingMeetings], action := some entry.keyword }
    else
      { sys := sys, msgs := [Msg.confirmSearchPrompt] }
  | _ => { sys := sys, msgs := [] }

/-- `enhanced_handle_meeting_search` (project_manager lines 252-270):
the background search is spawned with `space=None` and `days_back=30`. -/
def enhancedMeetingSearch (sys : SysState) (user_id text : String) : TurnOut :=
  let r := handleMeetingSearchFlow sys user_id text
  match r.action with
  | some kw => { sys := r.sys, msgs := r.msgs, spawns := [Spawn.searchMeetingsBg kw none 30] }
  | none => { sys := r.sys, msgs := r.msgs }

structure DocFlowOut where
  sys : SysState
  msgs : List Msg
  spawns : List Spawn := []
  result : Option Documents := none
deriving Repr, DecidableEq

/-- The `awaiting_documents` branch of `_handle_document_epic_flow`
(lines 634-707).  `hasattr` applied to the state dict tests an attribute and is
therefore always False, so the merge branch of lines 670-675
is dead code: the freshly collected documents always replace the stored
ones. -/
def docAwaitingStep (sys : SysState) (user_id text : String) : DocFlowOut :=
  let entry := (dget sys.conv user_id).getD default
  if pyLower text = "simple" then
    let entry1 : ConvEntry := { step := "epic_creation", substep := some "awaiting_details" }
    let sys1 := { sys with conv := dset sys.conv user_id entry1 }
    let r := enhancedEpicCreation sys1 user_id ""
    { sys := r.sys, msgs := Msg.switchingSimple :: r.msgs, spawns := r.spawns }
  else
    let documents := classifyDocuments text
    let entry1 : ConvEntry := { entry with documents := some documents }
    if docTotal documents = 0 then
      { sys := { sys with conv := dset sys.conv user_id entry1 },
        msgs := [Msg.noDocsDetected] }
    else
      let entry2 : ConvEntry := { entry1 with substep := some "confirming_documents" }
      { sys := { sys with conv := dset sys.conv user_id entry2 },
        msgs := [Msg.docsSummary documents] }

/-- `_handle_document_epic_flow` (lines 630-721).  In the source the
`confirming_documents` fall-through branch resets the substep and calls
the (enhanced) document handler recursively; the recursive call always
lands in the `awaiting_documents` branch, whose action result is `None`,
so it is inlined here as `docAwaitingStep`. -/
def handleDocumentEpicFlow (sys : SysState) (user_id text : String) : DocFlowOut :=
  let entry := (dget sys.conv user_id).getD default
  match entry.substep with
  | some "awaiting_documents" => docAwaitingStep sys user_id text
  | some "confirming_documents" =>
    if pyLower text = "analyze" then
      match entry.documents with
      | some docs => { sys := sys, msgs := [Msg.processingDocs], result := some docs }
      | none =>
        -- the documents lookup raises KeyError, caught by the top-level
        -- conversational handler after the progress message was sent
        { sys := sys, msgs := [Msg.processingDocs, Msg.genericError] }
    else if pyLower text = "cancel" then
      let reset : ConvEntry := { step := "awaiting_choice" }
      { sys := { sys with conv := dset sys.conv user_id reset },
        msgs := [Msg.docsCancelled, Msg.mainMenu] }
    else
      let entry1 : ConvEntry := { entry with substep := some "awaiting_documents" }
      let sys1 := { sys with conv := dset sys.conv user_id entry1 }
      docAwaitingStep sys1 user_id text
  | _ => { sys := sys, msgs := [] }

/-- `enhanced_handle_document_epic` (project_manager lines 172-189):
spawn document analysis when a nonempty documents dict was returned. -/
def enhancedDocumentEpic (sys : SysState) (user_id text : String) : TurnOut :=
  let r := handleDocumentEpicFlow sys user_id text
  match r.result with
  | some docs =>
    if docsAny docs then
      { sys := r.sys, msgs := r.msgs, spawns := r.spawns ++ [Spawn.processDocsBg docs] }
    else
      { sys := r.sys, msgs := r.msgs, spawns := r.spawns }
  | none => { sys := r.sys, msgs := r.msgs, spawns := r.spawns }

/-- `enhanced_handle_epic_approval` (project_manager lines 191-205): the
original handler only reports the action, the approval resolution runs
synchronously in the same turn. -/
def enhancedEpicApproval (P : Ports) (sys : SysState) (user_id text : String) : TurnOut :=
  let r := handle_epic_approval_response P sys user_id text
  { sys := r.sys, msgs := r.msgs }

/-- `_handle_epic_feedback` (lines 728-740) composed with
`enhanced_handle_epic_feedback` (project_manager lines 207-230). -/
def enhancedEpicFeedback (P : Ports) (sys : SysState) (user_id text : String) : TurnOut :=
  if pyStrip text ≠ "" then
    let entry := (dget sys.conv user_id).getD default
    let entry1 : ConvEntry := { entry with feedback := some text }
    let sys1 := { sys with conv := dset sys.conv user_id entry1 }
    match dget sys1.proposals user_id with
    | some proposal_data =>
      let r := regenerate_epics_with_feedback P sys1 user_id proposal_data text
      { sys := r.sys, msgs := Msg.feedbackReceived :: r.msgs }
    | none => { sys := sys1, msgs := [Msg.feedbackReceived] }
  else
    { sys := sys, msgs := [Msg.provideFeedback] }

/-! ## The conversational message handler
(slack_service, _handle_conversational_message, lines 68-112, with the
ProjectManager-installed step handlers) -/

def handleMessage (P : Ports) (botId : String) (sys : SysState)
    (user_id text0 : String) : TurnOut :=
  let text := preprocess botId text0
  if isGreetingOrInitial text || (dget sys.conv user_id).isNone then
    { sys := startConversation sys user_id, msgs := [Msg.mainMenu] }
  else if isDoneMessage text then
    { sys := { sys with conv := ddel sys.conv user_id }, msgs := [Msg.farewell] }
  else
    let entry := (dget sys.conv user_id).getD default
    if entry.step = "awaiting_choice" then handleUserChoice sys user_id text
    else if entry.step = "epic_creation" then enhancedEpicCreation sys user_id text
    else if entry.step = "meeting_processing" then enhancedMeetingProcessing sys user_id text
    else if entry.step = "meeting_search" then enhancedMeetingSearch sys user_id text
    else if entry.step = "document_epic_creation" then enhancedDocumentEpic sys user_id text
    else if entry.step = "awaiting_epic_approval" then enhancedEpicApproval P sys user_id text
    else if entry.step = "collecting_epic_feedback" then enhancedEpicFeedback P sys user_id text
    else { sys := startConversation sys user_id, msgs := [Msg.mainMenu] }

/-! ## Meeting-to-documentation workflow
(src/core/project_manager.py, process_meeting_notes_to_confluence,
lines 570-671) -/

/-- A retrieved meeting; the two `strftime` renderings of its date are
carried as precomputed strings. -/
structure Meeting where
  title : String
  date_str : String
  date_time_str : String
  attendees : List String := []
  notes : String := ""
  transcript : String := ""
  meeting_id : String
deriving Repr, DecidableEq

/-- Structured notes as returned by the AI port (`title` and `tags` are
the keys read back with defaults). -/
structure ProcessedNotes where
  title : Option String := none
  tags : Option (List String) := none
  summary : String := ""
deriving Repr, DecidableEq

structure PageData where
  id : String := ""
  url : String := ""
deriving Repr, DecidableEq

structure MeetingPorts where
  get_recent_meetings : Option Nat → Except String (List Meeting)
  process_meeting_notes :
    String → String → List String → String → String → Except String ProcessedNotes
  create_confluence_content : ProcessedNotes → String → List String → Except String String
  create_confluence_page : String → String → String → List String → Except String PageData

/-- One entry of the workflow `results` list. -/
structure MeetingOutcome where
  meeting_title : String
  meeting_date : String
  success : Bool
  error : Option String := none
  confluence_page : Option PageData := none
  confluence_content : Option String := none
  processed_notes : Option ProcessedNotes := none
  note : Option String := none
deriving Repr, DecidableEq

structure MeetingWorkflowResult where
  success : Bool
  error : Option String := none
  processed_meetings : Option Nat := none
  results : List MeetingOutcome := []
deriving Repr, DecidableEq

/-- The per-meeting loop body with its enclosing `try`/`except`
(lines 607-658). -/
def processOneMeeting (MP : MeetingPorts) (confluence_space : Option String)
    (m : Meeting) : MeetingOutcome :=
  match MP.process_meeting_notes m.title m.date_time_str m.attendees m.notes m.transcript with
  | .error e =>
    { meeting_title := m.title, meeting_date := m.date_str, success := false, error := some e }
  | .ok processed_notes =>
    match MP.create_confluence_content processed_notes m.date_str m.attendees with
    | .error e =>
      { meeting_title := m.title, meeting_date := m.date_str, success := false, error := some e }
    | .ok confluence_content =>
      match confluence_space with
      | some space_key =>
        match MP.create_confluence_page space_key (processed_notes.title.getD m.title)
            confluence_content (processed_notes.tags.getD ["meeting", "automated"]) with
        | .error e =>
          { meeting_title := m.title, meeting_date := m.date_str,
            success := false, error := some e }
        | .ok page_data =>
          { meeting_title := m.title, meeting_date := m.date_str, success := true,
            confluence_page := some page_data, processed_notes := some processed_notes }
      | none =>
        { meeting_title := m.title, meeting_date := m.date_str, success := true,
          confluence_content := some confluence_content,
          processed_notes := some processed_notes,
          note := some "No Confluence space specified - content generated but not published" }

/-- The empty check and the per-meeting loop (lines 598-664). -/
def runMeetings (MP : MeetingPorts) (confluence_space : Option String)
    (meetings : List Meeting) : MeetingWorkflowResult :=
  if meetings.isEmpty then
    { success := false, error := some "No meetings found" }
  else
    let results := meetings.map (processOneMeeting MP confluence_space)
    { success := true, processed_meetings := some results.length, results := results }

def process_meeting_notes_to_confluence (MP : MeetingPorts)
    (meeting_id : Option String) (confluence_space : Option String) : MeetingWorkflowResult :=
  match meeting_id with
  | some mid =>
    match MP.get_recent_meetings (some 30) with
    | .error e => { success := false, error := some e }
    | .ok meetings =>
      match meetings.find? (fun m => decide (m.meeting_id = mid)) with
      | none => { success := false, error := some ("Meeting with ID " ++ mid ++ " not found") }
      | some m => runMeetings MP confluence_space [m]
  | none =>
    match MP.get_recent_meetings none with
    | .error e => { success := false, error := some e }
    | .ok meetings => runMeetings MP confluence_space meetings

/-! ## Concrete port instantiations used by closed theorems -/

def trivialPorts : Ports :=
  { jira_project_key := "PROJ",
    generate_features := fun _ _ _ => [],
    create_epic := fun req =>
      Except.ok { key := some "PROJ-1", title := req.title, description := req.description },
    generate_story := fun _ f _ => Except.ok { title := f, description := f },
    create_user_story := fun s _ => Except.ok s,
    regenerate_epics := fun ps _ _ => Except.ok ps }

/-- Ports whose story generation fails exactly on the feature "f3". -/
def failingStoryPorts : Ports :=
  { trivialPorts with
    generate_story := fun _ f _ =>
      if f = "f3" then Except.error "story model unavailable"
      else Except.ok { title := f, description := f } }

/-- Ports where the creation of the story titled "s-bad" fails. -/
def failingCreatePorts : Ports :=
  { trivialPorts with
    generate_story := fun _ f _ => Except.ok { title := f, description := f },
    create_user_story := fun s k =>
      if s.title = "s-bad" then Except.error "jira rejected the story"
      else Except.ok { s with epic_key := k } }

/-- Ports whose epic creation always fails. -/
def failingEpicPorts : Ports :=
  { trivialPorts with create_epic := fun _ => Except.error "jira down" }

/-- A user mid-way through the epic creation flow. -/
def c1sys : SysState :=
  { conv := [("U", { step := "epic_creation", substep := some "awaiting_details" })] }

/-- A user at the start of the document-epic flow. -/
def c2sys : SysState :=
  { conv := [("U", { step := "document_epic_creation", substep := some "awaiting_documents" })] }

/-- A link-free document fragment longer than 200 characters classified
as a PRD (contains "requirement", no greeting or termination phrase). -/
def prdText : String := strJoinWith " " (List.replicate 17 "requirement")

/-- A second link-free fragment longer than 200 characters classified as
meeting notes (contains "discussion"). -/
def notesText : String := strJoinWith " " (List.replicate 19 "discussion")

/-- A sample pending proposal. -/
def p0 : Proposal := { title := "P", description := "D" }

/-- A user awaiting approval of one pending proposal. -/
def c3sys : SysState :=
  { conv := [("U", { step := "awaiting_epic_approval", proposals := some [p0] })],
    proposals := [("U", [p0])] }

/-- Meeting ports for the partial-failure scenario: three meetings, AI
processing fails exactly on the meeting titled "M2". -/
def sampleMeeting (i : String) : Meeting :=
  { title := "M" ++ i, date_str := "2024-01-0" ++ i, date_time_str := "2024-01-0" ++ i ++ " 10:00",
    meeting_id := i }

def c6Ports : MeetingPorts :=
  { get_recent_meetings := fun _ =>
      Except.ok [sampleMeeting "1", sampleMeeting "2", sampleMeeting "3"],
    process_meeting_notes := fun title _ _ _ _ =>
      if title = "M2" then Except.error "model overloaded"
      else Except.ok { title := some (title ++ " notes") },
    create_confluence_content := fun pn _ _ => Except.ok ((pn.title.getD "") ++ " content"),
    create_confluence_page := fun _ t _ _ => Except.ok { id := "1", url := "/" ++ t } }

/-! ## Store lemmas -/

theorem dget_ddel_self {α : Type} (m : List (String × α)) (k : String) :
    dget (ddel m k) k = none := by
  induction m with
  | nil => rfl
  | cons kv rest ih =>
    obtain ⟨k', v⟩ := kv
    by_cases h : k' = k
    · simpa [ddel, h] using ih
    · simpa [ddel, dget, h] using ih

theorem dget_dset_self {α : Type} (m : List (String × α)) (k : String) (v : α) :
    dget (dset m k v) k = some v := by
  induction m with
  | nil => simp [dset, dget]
  | cons kv rest ih =>
    obtain ⟨k', v'⟩ := kv
    by_cases h : k' = k
    · simp [dset, dget, h]
    · simpa [dset, dget, h] using ih

theorem dget_some_mem {α : Type} (m : List (String × α)) (k : String) (v : α)
    (h : dget m k = some v) : ∃ k', (k', v) ∈ m := by
  induction m with
  | nil => simp [dget] at h
  | cons kv rest ih =>
    obtain ⟨k', v'⟩ := kv
    by_cases hk : k' = k
    · simp [dget, hk] at h
      exact ⟨k, by simp [hk, h]⟩
    · simp [dget, hk] at h
      obtain ⟨k'', hmem⟩ := ih h
      exact ⟨k'', by simp [hmem]⟩

/-! ## List counting lemmas -/

theorem length_filter_split {α : Type} (l : List α) (p : α → Bool) :
    (l.filter p).length + (l.filter (fun a => !p a)).length = l.length := by
  induction l with
  | nil => rfl
  | cons a l ih =>
    cases h : p a <;> simp [List.filter_cons, h] <;> omega

theorem length_filterMap_eq_filter_isSome {α β : Type} (l : List α) (f : α → Option β) :
    (l.filterMap f).length = (l.filter (fun a => (f a).isSome)).length := by
  induction l with
  | nil => rfl
  | cons a l ih =>
    cases h : f a with
    | none => simp [List.filterMap_cons, List.filter_cons, h, ih]
    | some b => simp [List.filterMap_cons, List.filter_cons, h, ih]

/-! ## Line-processing lemmas for epic parsing -/

theorem epicLineStep_title (d : EpicData) (l : String) :
    ((epicLineStep d l).title).isSome = (d.title.isSome || isTitleLine l) := by
  unfold epicLineStep isTitleLine lineField
  dsimp only
  split_ifs with hc h1 h2 h3 h4 h5 <;> simp_all

theorem epicLineStep_description (d : EpicData) (l : String) :
    ((epicLineStep d l).description).isSome = (d.description.isSome || isDescriptionLine l) := by
  unfold epicLineStep isDescriptionLine lineField
  dsimp only
  split_ifs with hc h1 h2 h3 h4 h5 <;> simp_all
  all_goals intro hcontra
  all_goals rcases hcontra with hk | hk <;> simp_all

theorem collect_title_isSome (ls : List String) (d : EpicData) :
    ((ls.foldl epicLineStep d).title).isSome = (d.title.isSome || ls.any isTitleLine) := by
  induction ls generalizing d with
  | nil => simp
  | cons l ls ih =>
    simp [List.foldl_cons, ih, epicLineStep_title, Bool.or_assoc]

theorem collect_description_isSome (ls : List String) (d : EpicData) :
    ((ls.foldl epicLineStep d).description).isSome
      = (d.description.isSome || ls.any isDescriptionLine) := by
  induction ls generalizing d with
  | nil => simp
  | cons l ls ih =>
    simp [List.foldl_cons, ih, epicLineStep_description, Bool.or_assoc]

/-! ## Flag-fold lemmas for the search argument parser -/

theorem procSearchFlag_days_const (acc : Option String × Int) (arg : String)
    (h : pyStartsWith arg "days=" = true → pyInt ((pySplitOnChar '=' arg).getD 1 "") = none) :
    (procSearchFlag acc arg).2 = acc.2 := by
  unfold procSearchFlag
  by_cases hs : pyStartsWith arg "space="
  · simp [hs]
  · by_cases hd : pyStartsWith arg "days="
    · have h' := h hd
      simp only [hs, if_false, hd, if_true]
      rw [h']
      simp
    · simp [hs, hd]

theorem foldFlags_days_const (rest : List String) (acc : Option String × Int)
    (h : ∀ arg ∈ rest, pyStartsWith arg "days=" = true →
      pyInt ((pySplitOnChar '=' arg).getD 1 "") = none) :
    (rest.foldl procSearchFlag acc).2 = acc.2 := by
  induction rest generalizing acc with
  | nil => rfl
  | cons a rest ih =>
    rw [List.foldl_cons, ih _ (fun arg hm hd => h arg (by simp [hm]) hd)]
    exact procSearchFlag_days_const acc a (h a (by simp))

theorem procSearchFlag_space_const (acc : Option String × Int) (arg : String)
    (h : pyStartsWith arg "space=" = false) :
    (procSearchFlag acc arg).1 = acc.1 := by
  unfold procSearchFlag
  by_cases hd : pyStartsWith arg "days="
  · simp only [h, if_false, hd, if_true]
    cases pyInt ((pySplitOnChar '=' arg).getD 1 "") <;> simp
  · simp [h, hd]

theorem foldFlags_space_const (rest : List String) (acc : Option String × Int)
    (h : ∀ arg ∈ rest, pyStartsWith arg "space=" = false) :
    (rest.foldl procSearchFlag acc).1 = acc.1 := by
  induction rest generalizing acc with
  | nil => rfl
  | cons a rest ih =>
    rw [List.foldl_cons, ih _ (fun arg hm => h arg (by simp [hm]))]
    exact procSearchFlag_space_const acc a (h a (by simp))

/-! ## Claim C4 — priority normalization -/

/-- Claim C4, counterexample: the empty string is not in the alias table,
yet `normalize_priority` returns `None` for it rather than `"Medium"` as
the claim asserts for every string outside the table. -/
theorem C4_empty_priority_cex :
    normalize_priority "" = none ∧
    normalize_priority "" ≠ some "Medium" ∧
    dget priority_mapping "" = none := by
  refine ⟨rfl, by decide, rfl⟩

/-- Claim C4, amended: `normalize_priority` never fails, maps every
NONEMPTY string outside the alias table (keys compared case-insensitively
after trimming) to `"Medium"` and every table key to its canonical value,
which is always one of Low/Medium/High/Critical; the empty string is the
one exception and yields `None`. -/
theorem C4_normalize_priority_amended (s : String) (h : s ≠ "") :
    (dget priority_mapping (pyLower (pyStrip s)) = none → normalize_priority s = some "Medium") ∧
    (∀ v, dget priority_mapping (pyLower (pyStrip s)) = some v → normalize_priority s = some v) ∧
    ∃ v, v ∈ ["Low", "Medium", "High", "Critical"] ∧ normalize_priority s = some v := by
  unfold normalize_priority
  simp only [h, if_false]
  refine ⟨fun hn => by simp [hn], fun v hv => by simp [hv], ?_⟩
  cases hd : dget priority_mapping (pyLower (pyStrip s)) with
  | none => exact ⟨"Medium", by simp, by simp [hd]⟩
  | some v =>
    obtain ⟨k', hmem⟩ := dget_some_mem _ _ _ hd
    have hv : v ∈ ["Low", "Medium", "High", "Critical"] := by
      have : ∀ kv ∈ priority_mapping, kv.2 ∈ ["Low", "Medium", "High", "Critical"] := by decide
      exact this (k', v) hmem
    exact ⟨v, hv, by simp [hd]⟩

/-- Claim C4, witness for the amended theorem: a table alias and an
unmapped nonempty string. -/
theorem C4_normalize_priority_witness :
    normalize_priority "  URGENT " = some "Critical" ∧
    normalize_priority "xyz" = some "Medium" :=
  ⟨(C4_normalize_priority_amended "  URGENT " (by decide)).2.1 "Critical" (by decide),
   (C4_normalize_priority_amended "xyz" (by decide)).1 (by decide)⟩

/-! ## Claim C5 — search-meeting argument parsing -/

/-- Claim C5, counterexample: on `"space=PROJ sprint"` the handler takes
the FIRST token as the keyword even though it is a `space=` flag, and the
flag is not recognized, contradicting the claim that flags are recognized
anywhere and the first non-flag token becomes the keyword. -/
theorem C5_keyword_flag_cex :
    parseSearchArgs "space=PROJ sprint"
      = some { keyword := "space=PROJ", confluence_space := none, days_back := 30 } ∧
    pyStartsWith "space=PROJ" "space=" = true := by
  refine ⟨by decide, by decide⟩

/-- Claim C5, amended: the handler tokenizes on whitespace, takes the
first token unconditionally as the keyword (even when it is a flag
token), recognizes `space=X` and `days=N` only among the tokens after the
first, and silently falls back to the default 30 when every `days=` value
among them is unparseable as an integer (likewise `confluence_space`
stays unset when no later token is a `space=` flag). -/
theorem C5_search_args_amended (kw : String) (rest : List String) :
    parseSearchTokens (kw :: rest)
      = some { keyword := kw,
               confluence_space := (rest.foldl procSearchFlag (none, 30)).1,
               days_back := (rest.foldl procSearchFlag (none, 30)).2 } ∧
    ((∀ arg ∈ rest, pyStartsWith arg "days=" = true →
        pyInt ((pySplitOnChar '=' arg).getD 1 "") = none) →
      (rest.foldl procSearchFlag (none, 30)).2 = 30) ∧
    ((∀ arg ∈ rest, pyStartsWith arg "space=" = false) →
      (rest.foldl procSearchFlag (none, 30)).1 = none) :=
  ⟨rfl, fun h => foldFlags_days_const rest (none, 30) h,
   fun h => foldFlags_space_const rest (none, 30) h⟩

/-- Claim C5, witness for the amended theorem: an unparseable `days=`
value falls back to 30 and the keyword is the first token. -/
theorem C5_search_args_witness :
    parseSearchTokens ["sprint", "days=abc"]
      = some { keyword := "sprint", confluence_space := none, days_back := 30 } := by
  have h := C5_search_args_amended "sprint" ["days=abc"]
  rw [h.1, h.2.1 (by decide), h.2.2 (by decide)]

/-! ## Claim C9 — epic parsing fails exactly on missing title or description -/

/-- Claim C9 (confirmed): `_parse_epic_request` fails exactly when, after
processing all `key: value` lines, no line assigned the title field or no
line assigned the description field; when both fields are present, the
collected record is returned even if every optional field is absent. -/
theorem C9_parse_fails_iff_missing (text : String) :
    (parseEpicRequest text = none ↔
      ((pySplitOnChar '\n' text).any isTitleLine = false ∨
       (pySplitOnChar '\n' text).any isDescriptionLine = false)) ∧
    ((pySplitOnChar '\n' text).any isTitleLine = true →
      (pySplitOnChar '\n' text).any isDescriptionLine = true →
      parseEpicRequest text = some (collectEpicFields text)) := by
  have ht : (collectEpicFields text).title.isSome = (pySplitOnChar '\n' text).any isTitleLine := by
    simpa using collect_title_isSome (pySplitOnChar '\n' text) {}
  have hd : (collectEpicFields text).description.isSome
      = (pySplitOnChar '\n' text).any isDescriptionLine := by
    simpa using collect_description_isSome (pySplitOnChar '\n' text) {}
  unfold parseEpicRequest
  constructor
  · constructor
    · intro hn
      by_cases h : (collectEpicFields text).title = none ∨
          (collectEpicFields text).description = none
      · rcases h with h | h
        · left
          rw [← ht, h]
          rfl
        · right
          rw [← hd, h]
          rfl
      · simp [h] at hn
    · intro hor
      have : (collectEpicFields text).title = none ∨
          (collectEpicFields text).description = none := by
        rcases hor with h | h
        · left
          rw [← Option.not_isSome_iff_eq_none, ht, h]
          simp
        · right
          rw [← Option.not_isSome_iff_eq_none, hd, h]
          simp
      simp [this]
  · intro h1 h2
    have : ¬((collectEpicFields text).title = none ∨
        (collectEpicFields text).description = none) := by
      rintro (h | h)
      · rw [← ht, h] at h1
        simp at h1
      · rw [← hd, h] at h2
        simp at h2
    simp [this]

/-- Claim C9, witness: a two-line request with both required fields
parses to the collected record; a title-only request fails. -/
theorem C9_parse_witness :
    parseEpicRequest "Title: A\nDescription: B"
      = some (collectEpicFields "Title: A\nDescription: B") ∧
    parseEpicRequest "Title: A" = none :=
  ⟨(C9_parse_fails_iff_missing "Title: A\nDescription: B").2 (by decide) (by decide),
   (C9_parse_fails_iff_missing "Title: A").1.mpr (Or.inr (by decide))⟩

/-! ## Claim C8 — story generation fan-out discards individual failures -/

/-- Claim C8 (confirmed): `generate_user_stories` issues one generation
request per feature; with 5 features where the call for feature 3 throws
and the others succeed, it returns exactly the 4 successful stories, and
the exception is neither re-raised (the function is total and returns a
plain list) nor aborts the other generations. -/
theorem C8_story_generation_isolation (P : Ports) (desc ctx f1 f2 f3 f4 f5 : String)
    (s1 s2 s4 s5 : UserStory) (e : String)
    (h1 : P.generate_story desc f1 ctx = Except.ok s1)
    (h2 : P.generate_story desc f2 ctx = Except.ok s2)
    (h3 : P.generate_story desc f3 ctx = Except.error e)
    (h4 : P.generate_story desc f4 ctx = Except.ok s4)
    (h5 : P.generate_story desc f5 ctx = Except.ok s5) :
    generate_user_stories P desc [f1, f2, f3, f4, f5] ctx = [s1, s2, s4, s5] ∧
    (generate_user_stories P desc [f1, f2, f3, f4, f5] ctx).length = 4 := by
  unfold generate_user_stories
  simp [h1, h2, h3, h4, h5, exceptToOption]

/-- Claim C8, witness: concrete ports failing exactly on feature "f3". -/
theorem C8_story_generation_witness :
    generate_user_stories failingStoryPorts "d" ["f1", "f2", "f3", "f4", "f5"] "ctx"
      = [{ title := "f1", description := "f1" }, { title := "f2", description := "f2" },
         { title := "f4", description := "f4" }, { title := "f5", description := "f5" }] :=
  (C8_story_generation_isolation failingStoryPorts "d" "ctx" "f1" "f2" "f3" "f4" "f5"
    { title := "f1", description := "f1" } { title := "f2", description := "f2" }
    { title := "f4", description := "f4" } { title := "f5", description := "f5" }
    "story model unavailable" rfl rfl rfl rfl rfl).1

/-! ## Claim C7 — epic creation workflow result -/

/-- Claim C7 (confirmed): whenever the epic-creation step succeeds, the
workflow returns `success = true` with the created epic and a story count
equal to the number of story creations that succeeded, no matter how many
individual story creations failed; when epic creation itself throws, it
returns `success = false`, no epic, and the failure message. -/
theorem C7_epic_workflow_result (P : Ports) (req : EpicRequest) (gen : Bool) :
    (∀ e, P.create_epic { req with preferred_features := resolveFeatures P req gen }
        = Except.error e →
      create_epic_with_stories P req gen
        = { success := false, epic := none,
            message := "Failed to create epic: " ++ e, user_stories_count := none }) ∧
    (∀ epic, P.create_epic { req with preferred_features := resolveFeatures P req gen }
        = Except.ok epic →
      (create_epic_with_stories P req gen).success = true ∧
      (create_epic_with_stories P req gen).epic = some epic ∧
      (create_epic_with_stories P req gen).user_stories_count = some
        (((generate_user_stories P epic.description ((resolveFeatures P req gen).getD [])
            (projectContext P)).filter
          (fun s => (exceptToOption (P.create_user_story s epic.key)).isSome)).length)) := by
  constructor
  · intro e he
    unfold create_epic_with_stories
    dsimp only
    rw [he]
  · intro epic hok
    unfold create_epic_with_stories
    dsimp only
    rw [hok]
    refine ⟨rfl, rfl, ?_⟩
    by_cases hf : featuresEmptyOpt (resolveFeatures P req gen)
    · have hnil : (resolveFeatures P req gen).getD [] = [] := by
        cases hr : resolveFeatures P req gen with
        | none => rfl
        | some l =>
          rw [hr] at hf
          simpa [featuresEmptyOpt, List.isEmpty_iff] using hf
      simp [hf, hnil, generate_user_stories]
    · simp [hf, length_filterMap_eq_filter_isSome]

/-- Claim C7, witness: with two features, one story creation failing,
the workflow reports success with one story; with a failing issue
tracker, it reports the failure message. -/
theorem C7_epic_workflow_witness :
    (create_epic_with_stories failingCreatePorts
        { title := "T", description := "D", preferred_features := some ["s-ok", "s-bad"] }
        true).success = true ∧
    (create_epic_with_stories failingCreatePorts
        { title := "T", description := "D", preferred_features := some ["s-ok", "s-bad"] }
        true).user_stories_count = some 1 ∧
    create_epic_with_stories failingEpicPorts
        { title := "T", description := "D", preferred_features := some ["f"] } true
      = { success := false, epic := none,
          message := "Failed to create epic: jira down", user_stories_count := none } := by
  have h := C7_epic_workflow_result failingCreatePorts
    { title := "T", description := "D", preferred_features := some ["s-ok", "s-bad"] } true
  have hok := h.2 { key := some "PROJ-1", title := "T", description := "D" } rfl
  have hfail := (C7_epic_workflow_result failingEpicPorts
    { title := "T", description := "D", preferred_features := some ["f"] } true).1 "jira down" rfl
  refine ⟨hok.1, ?_, hfail⟩
  rw [hok.2.2]
  rfl

/-! ## Claim C6 — per-meeting partial failure aggregation -/

/-- Claim C6 (confirmed): when retrieval returns 3 meetings and the AI
processing call for meeting 2 throws while the pipelines for meetings 1
and 3 succeed, the workflow result has `processed_meetings = 3`, exactly
2 result entries with `success = true`, exactly 1 with `success = false`
carrying the error string, and overall `success = true`; the per-meeting
failure does not abort the remaining meetings. -/
theorem C6_partial_failure_aggregation (MP : MeetingPorts) (space : Option String)
    (m1 m2 m3 : Meeting) (e : String)
    (hget : MP.get_recent_meetings none = Except.ok [m1, m2, m3])
    (h1 : (processOneMeeting MP space m1).success = true)
    (h2 : MP.process_meeting_notes m2.title m2.date_time_str m2.attendees m2.notes
        m2.transcript = Except.error e)
    (h3 : (processOneMeeting MP space m3).success = true) :
    (process_meeting_notes_to_confluence MP none space).success = true ∧
    (process_meeting_notes_to_confluence MP none space).processed_meetings = some 3 ∧
    ((process_meeting_notes_to_confluence MP none space).results.filter
      (fun o => o.success)).length = 2 ∧
    (process_meeting_notes_to_confluence MP none space).results.filter
        (fun o => !o.success)
      = [{ meeting_title := m2.title, meeting_date := m2.date_str,
           success := false, error := some e }] := by
  have hm2 : processOneMeeting MP space m2
      = { meeting_title := m2.title, meeting_date := m2.date_str,
          success := false, error := some e } := by
    unfold processOneMeeting
    rw [h2]
  unfold process_meeting_notes_to_confluence runMeetings
  rw [hget]
  simp [List.filter_cons, h1, h3, hm2]

/-- Claim C6, witness: three concrete meetings where processing of "M2"
fails. -/
theorem C6_partial_failure_witness :
    (process_meeting_notes_to_confluence c6Ports none (some "SP")).success = true ∧
    (process_meeting_notes_to_confluence c6Ports none (some "SP")).processed_meetings
      = some 3 ∧
    ((process_meeting_notes_to_confluence c6Ports none (some "SP")).results.filter
      (fun o => o.success)).length = 2 ∧
    (process_meeting_notes_to_confluence c6Ports none (some "SP")).results.filter
        (fun o => !o.success)
      = [{ meeting_title := "M2", meeting_date := "2024-01-02",
           success := false, error := some "model overloaded" }] :=
  C6_partial_failure_aggregation c6Ports (some "SP")
    (sampleMeeting "1") (sampleMeeting "2") (sampleMeeting "3") "model overloaded"
    rfl (by decide) rfl (by decide)

/-! ## Claim C10 — approval handler is atomic on invalid input -/

/-- Claim C10 (confirmed): for every response that is not
approve/reject/cancel case-insensitively, `handle_epic_approval_response`
leaves the whole state (pending proposals and conversation store)
unchanged and returns the failure result "Invalid response"; when the
user has no pending proposals it likewise returns a failure result
"No pending proposals" without modifying any state. -/
theorem C10_invalid_response_atomic (P : Ports) (sys : SysState) (user_id response : String) :
    ((dget sys.proposals user_id).isSome = true →
      pyLower response ≠ "approve" → pyLower response ≠ "reject" →
      pyLower response ≠ "cancel" →
      (handle_epic_approval_response P sys user_id response).sys = sys ∧
      (handle_epic_approval_response P sys user_id response).result
        = { success := false, error := some "Invalid response" }) ∧
    (dget sys.proposals user_id = none →
      (handle_epic_approval_response P sys user_id response).sys = sys ∧
      (handle_epic_approval_response P sys user_id response).result
        = { success := false, error := some "No pending proposals" }) := by
  constructor
  · intro hsome ha hr hc
    obtain ⟨eps, heps⟩ := Option.isSome_iff_exists.mp hsome
    unfold handle_epic_approval_response
    rw [heps]
    simp [ha, hr, hc]
  · intro hnone
    unfold handle_epic_approval_response
    rw [hnone]
    exact ⟨rfl, rfl⟩

/-- Claim C10, witness: the response "maybe" with pending proposals, and
an approval attempt with no pending proposals. -/
theorem C10_invalid_response_witness :
    (handle_epic_approval_response trivialPorts c3sys "U" "maybe").sys = c3sys ∧
    (handle_epic_approval_response trivialPorts c3sys "U" "maybe").result
      = { success := false, error := some "Invalid response" } ∧
    (handle_epic_approval_response trivialPorts { } "U" "approve").sys = { } ∧
    (handle_epic_approval_response trivialPorts { } "U" "approve").result
      = { success := false, error := some "No pending proposals" } := by
  have h1 := (C10_invalid_response_atomic trivialPorts c3sys "U" "maybe").1
    (by decide) (by decide) (by decide) (by decide)
  have h2 := (C10_invalid_response_atomic trivialPorts { } "U" "approve").2 rfl
  exact ⟨h1.1, h1.2, h2.1, h2.2⟩

/-! ## Claim C3 — approval resolution on "approve" -/

/-- Claim C3, counterexample: with one pending proposal and trivially
succeeding ports, responding "approve" deletes the pending-proposal entry
but leaves the conversation-state entry exactly as it was (still
`awaiting_epic_approval`), contradicting the claim that the handler
clears the conversation-state entry of the user. -/
theorem C3_approve_keeps_conversation_cex :
    (handle_epic_approval_response trivialPorts c3sys "U" "approve").sys.conv = c3sys.conv ∧
    dget (handle_epic_approval_response trivialPorts c3sys "U" "approve").sys.conv "U"
      = some { step := "awaiting_epic_approval", proposals := some [p0] } ∧
    dget (handle_epic_approval_response trivialPorts c3sys "U" "approve").sys.proposals "U"
      = none := by
  refine ⟨rfl, by decide, by decide⟩

/-- Claim C3, amended: when a user in `awaiting_epic_approval` with
pending proposals responds "approve", the handler invokes the
epic-creation workflow once per proposal, aggregates the created and
failed counts (their sum is the number of proposals), and deletes the
pending-proposal entry — but it leaves the conversation-state entry
unchanged; only "cancel" clears the conversation entry. -/
theorem C3_approve_amended (P : Ports) (sys : SysState) (user_id : String)
    (eps : List Proposal) (h : dget sys.proposals user_id = some eps) :
    (handle_epic_approval_response P sys user_id "approve").sys.conv = sys.conv ∧
    dget (handle_epic_approval_response P sys user_id "approve").sys.proposals user_id
      = none ∧
    (handle_epic_approval_response P sys user_id "approve").result.success = true ∧
    (handle_epic_approval_response P sys user_id "approve").result.created
      = some ((eps.map (fun p => create_epic_with_stories P (proposalToRequest p) true)).filter
          (fun r => r.success)).length ∧
    (handle_epic_approval_response P sys user_id "approve").result.failed
      = some ((eps.map (fun p => create_epic_with_stories P (proposalToRequest p) true)).filter
          (fun r => !r.success)).length ∧
    ((handle_epic_approval_response P sys user_id "approve").result.created.getD 0) +
      ((handle_epic_approval_response P sys user_id "approve").result.failed.getD 0)
      = eps.length := by
  unfold handle_epic_approval_response
  rw [h]
  have hap : pyLower "approve" = "approve" := by decide
  dsimp only
  rw [hap, if_pos rfl]
  refine ⟨rfl, dget_ddel_self _ _, rfl, rfl, rfl, ?_⟩
  simpa using length_filter_split
    (eps.map (fun p => create_epic_with_stories P (proposalToRequest p) true))
    (fun r => r.success)

/-- Claim C3, witness: the concrete one-proposal store with trivially
succeeding ports. -/
theorem C3_approve_witness :
    (handle_epic_approval_response trivialPorts c3sys "U" "approve").sys.conv = c3sys.conv ∧
    dget (handle_epic_approval_response trivialPorts c3sys "U" "approve").sys.proposals "U"
      = none ∧
    (handle_epic_approval_response trivialPorts c3sys "U" "approve").result.success = true ∧
    ((handle_epic_approval_response trivialPorts c3sys "U" "approve").result.created.getD 0) +
      ((handle_epic_approval_response trivialPorts c3sys "U" "approve").result.failed.getD 0)
      = 1 := by
  have h := C3_approve_amended trivialPorts c3sys "U" [p0] rfl
  exact ⟨h.1, h.2.1, h.2.2.1, h.2.2.2.2.2⟩

/-! ## Claim C1 — termination clears state -/

/-- Claim C1, counterexample: the greeting check runs before the
termination check and classifies any message of at most two whitespace
tokens as a greeting, so the termination phrase "done" sent by a user
mid-flow does NOT leave the conversation entry absent: the entry is reset
to `awaiting_choice` and the main menu is rendered instead of the
farewell. -/
theorem C1_termination_greeting_cex :
    isDoneMessage "done" = true ∧
    (handleMessage trivialPorts "B" c1sys "U" "done").sys.conv
      = [("U", { step := "awaiting_choice" })] ∧
    (handleMessage trivialPorts "B" c1sys "U" "done").msgs = [Msg.mainMenu] := by
  refine ⟨by decide, by decide, by decide⟩

/-- Claim C1, amended: provided the message (after trimming and
bot-mention removal) is NOT classified as a greeting — it contains no
greeting phrase and has more than two whitespace tokens — sending a
message containing a termination phrase while a conversation entry
exists deletes that entry and renders the farewell, and the next message
from that user, regardless of content, is treated as a fresh greeting:
the entry is recreated at `awaiting_choice` and the main menu rendered.
(A termination message that is also a greeting, such as the single word
"done", instead resets the entry to `awaiting_choice`.) -/
theorem C1_termination_clears_state_amended (P : Ports) (botId : String) (sys : SysState)
    (user_id text next : String) (entry : ConvEntry)
    (hentry : dget sys.conv user_id = some entry)
    (hgreet : isGreetingOrInitial (preprocess botId text) = false)
    (hdone : isDoneMessage (preprocess botId text) = true) :
    dget (handleMessage P botId sys user_id text).sys.conv user_id = none ∧
    (handleMessage P botId sys user_id text).msgs = [Msg.farewell] ∧
    dget (handleMessage P botId (handleMessage P botId sys user_id text).sys
        user_id next).sys.conv user_id = some { step := "awaiting_choice" } ∧
    (handleMessage P botId (handleMessage P botId sys user_id text).sys user_id next).msgs
      = [Msg.mainMenu] := by
  have h1 : handleMessage P botId sys user_id text
      = { sys := { sys with conv := ddel sys.conv user_id }, msgs := [Msg.farewell] } := by
    simp [handleMessage, hgreet, hentry, hdone]
  have hnone : dget (ddel sys.conv user_id) user_id = none := dget_ddel_self _ _
  have h2 : handleMessage P botId { sys with conv := ddel sys.conv user_id } user_id next
      = { sys := startConversation { sys with conv := ddel sys.conv user_id } user_id,
          msgs := [Msg.mainMenu] } := by
    simp [handleMessage, hnone]
  rw [h1]
  refine ⟨hnone, rfl, ?_, ?_⟩
  · rw [h2]
    unfold startConversation
    exact dget_dset_self _ _ _
  · rw [h2]

/-- Claim C1, witness: a six-token termination message deletes the entry
and an arbitrary follow-up re-renders the menu. -/
theorem C1_termination_clears_state_witness :
    dget (handleMessage trivialPorts "B" c1sys "U" "ok we are all done now").sys.conv "U"
      = none ∧
    (handleMessage trivialPorts "B" c1sys "U" "ok we are all done now").msgs
      = [Msg.farewell] ∧
    dget (handleMessage trivialPorts "B"
        (handleMessage trivialPorts "B" c1sys "U" "ok we are all done now").sys
        "U" "whatever text came next").sys.conv "U" = some { step := "awaiting_choice" } ∧
    (handleMessage trivialPorts "B"
        (handleMessage trivialPorts "B" c1sys "U" "ok we are all done now").sys
        "U" "whatever text came next").msgs = [Msg.mainMenu] :=
  C1_termination_clears_state_amended trivialPorts "B" c1sys "U" "ok we are all done now"
    "whatever text came next" { step := "epic_creation", substep := some "awaiting_details" }
    (by decide) (by decide) (by decide)

/-! ## Claim C2 — document fragments are replaced, not accumulated -/

set_option maxRecDepth 100000 in
set_option maxHeartbeats 1000000 in
/-- Claim C2 (code bug): the claim and the spec say document fragments
accumulate across turns, and the merge branch of the source (lines
670-675, comment "Merge with existing documents") shows the same intent —
but its guard applies `hasattr` to the state dict, which is always
False, so the fragments collected in a turn always REPLACE
the stored ones.  After a first turn collecting a PRD fragment and a
second turn collecting a meeting-notes fragment, the PRD fragment is
gone. -/
theorem C2_documents_replaced_not_accumulated :
    dget (handleMessage trivialPorts "B" c2sys "U" prdText).sys.conv "U"
      = some { step := "document_epic_creation", substep := some "confirming_documents",
               documents := some { prd_documents := [prdText] } } ∧
    dget (handleMessage trivialPorts "B"
        (handleMessage trivialPorts "B" c2sys "U" prdText).sys "U" notesText).sys.conv "U"
      = some { step := "document_epic_creation", substep := some "confirming_documents",
               documents := some { meeting_notes := [notesText] } } := by
  refine ⟨by decide, by decide⟩

end PMBot
